import Mathlib

/-!
Verification development for the swapses rust-core wallet engine.

The repository code (src/rust-core/src/bip39.rs, hd_wallet.rs, utils.rs,
lib.rs) is a set of thin deterministic wrappers over external crates
(bip39, hdwallet, secp256k1, sha3, hex).  We embed the wrapper functions
faithfully, parameterizing them over an interface `WalletLib` that bundles
the external-crate operations together with the type-level and documented
guarantees those crates provide (fixed output lengths, and that a freshly
generated mnemonic parses back successfully).  All wrapper bodies below are
translated line by line from the Rust source.
-/

namespace Swapses

/-- Byte strings: lists of naturals, each entry a byte value below 256. -/
abbrev Bytes := List Nat

/-- Lowercase hex digit for a nibble, as produced by the hex crate
(0-9 then a-f). -/
def hexDigit (n : Nat) : Char :=
  if n < 10 then Char.ofNat (48 + n) else Char.ofNat (87 + n)

/-- Two lowercase hex characters for one byte (high nibble first). -/
def hexByte (b : Nat) : String :=
  String.mk [hexDigit (b / 16 % 16), hexDigit (b % 16)]

/-- Models hex encode from the hex crate: lowercase hex of a byte string. -/
def hexEncode (bs : Bytes) : String :=
  String.join (bs.map hexByte)

/-- The last n entries of a byte string. -/
def takeLast (n : Nat) (bs : Bytes) : Bytes :=
  bs.drop (bs.length - n)

/-- Models Result is_ok from Rust. -/
def is_ok {E A : Type} : Except E A → Bool
  | Except.ok _ => true
  | Except.error _ => false

/-- The apostrophe character used to mark hardened path segments. -/
def apos : String := String.mk [Char.ofNat 39]

/-- The shared leading part of every derivation path string used by the
system: m/44 h /60 h /0 h /0/ (h marking a hardened segment). -/
def ethBase : String := "m/44" ++ apos ++ "/60" ++ apos ++ "/0" ++ apos ++ "/0/"

/-- The path string built in the child loop of hd_wallet.rs for index i. -/
def pathStr (i : Nat) : String := ethBase ++ toString i

/-- The fixed parent path string literal of derive_parent_wallet. -/
def parentPathStr : String := ethBase ++ "0"

/-- Splits a character list at spaces, keeping empty pieces, with the
piece built so far carried reversed. -/
def wordsAux (cur : List Char) : List Char → List (List Char)
  | [] => [cur.reverse]
  | c :: cs =>
    if c = ' ' then cur.reverse :: wordsAux [] cs else wordsAux (c :: cur) cs

/-- The space-separated words of a phrase (the splitting the bip39 crate
performs on the phrase text). -/
def words (s : String) : List String :=
  (wordsAux [] s.data).map String.mk

/-- WalletInfo from lib.rs: address, private key and public key, all
hex-encoded strings. -/
structure WalletInfo where
  address : String
  private_key : String
  public_key : String
  deriving DecidableEq

/-- SplitResult from lib.rs: one parent wallet plus the child wallets. -/
structure SplitResult where
  parent_wallet : WalletInfo
  child_wallets : List WalletInfo
  deriving DecidableEq

/-- Interface to the external crates used by the wrappers, with the
guarantees the crates provide.  Type parameters: Mn = bip39 Mnemonic,
Pth = parsed derivation path, Xprv = hdwallet ExtendedPrivKey,
Sec = secp256k1 SecretKey, Pub = secp256k1 PublicKey, E = boxed error. -/
structure WalletLib (Mn Pth Xprv Sec Pub E : Type) where
  /-- bip39 Mnemonic new with Words24 and English: draws from the entropy
  source it is handed and builds a fresh mnemonic. -/
  mnemonic_new : Nat → Mn
  /-- bip39 Mnemonic phrase: the text of the mnemonic. -/
  phrase : Mn → String
  /-- bip39 Mnemonic from_phrase with English: parses and checks a phrase. -/
  from_phrase : String → Except E Mn
  /-- bip39 Mnemonic to_seed: key stretching of the phrase with a
  passphrase (64-byte output). -/
  to_seed : Mn → String → Bytes
  /-- The fixed 2048-word English wordlist the bip39 crate checks against. -/
  wordlist : List String
  /-- Whether the checksum embedded in a phrase matches, as recomputed by
  the bip39 crate during parsing. -/
  checksum_matches : String → Bool
  /-- hdwallet ExtendedPrivKey new: master key from a seed. -/
  master_key : Bytes → Except E Xprv
  /-- hdwallet path parsing (the parse call on the path string). -/
  parse_path : String → Except E Pth
  /-- hdwallet derive_priv: walk a parsed path from a key. -/
  derive_priv : Xprv → Pth → Except E Xprv
  /-- The private_key field of an ExtendedPrivKey. -/
  private_key_of : Xprv → Sec
  /-- secp256k1 PublicKey from_secret_key. -/
  from_secret_key : Sec → Pub
  /-- secp256k1 SecretKey secret_bytes (32 bytes). -/
  secret_bytes : Sec → Bytes
  /-- secp256k1 PublicKey serialize: compressed form, 33 bytes. -/
  serialize : Pub → Bytes
  /-- secp256k1 PublicKey serialize_uncompressed: 65 bytes, leading
  format byte 4. -/
  serialize_uncompressed : Pub → Bytes
  /-- sha3 Keccak256 over a byte string (32-byte digest). -/
  keccak256 : Bytes → Bytes
  /-- bip39 guarantee: a seed is exactly 64 bytes (the Rust type is a
  64-byte array). -/
  to_seed_len : ∀ m p, (to_seed m p).length = 64
  /-- secp256k1 guarantee: uncompressed serialization is exactly 65 bytes
  (the Rust type is a 65-byte array). -/
  uncompressed_len : ∀ k, (serialize_uncompressed k).length = 65
  /-- sha3 guarantee: a Keccak256 digest is exactly 32 bytes. -/
  keccak_len : ∀ b, (keccak256 b).length = 32
  /-- bip39 guarantee: a freshly generated mnemonic prints to a phrase
  that parses back successfully. -/
  new_valid : ∀ e, ∃ m, from_phrase (phrase (mnemonic_new e)) = Except.ok m
  /-- bip39 guarantee: a Words24 mnemonic prints to a 24-word phrase. -/
  new_words24 : ∀ e, (words (phrase (mnemonic_new e))).length = 24
  /-- bip39 guarantee: from_phrase succeeds only when every word of the
  phrase is in the wordlist and the embedded checksum matches. -/
  from_phrase_sound : ∀ s m, from_phrase s = Except.ok m →
    (∀ w ∈ words s, w ∈ wordlist) ∧ checksum_matches s = true

variable {Mn Pth Xprv Sec Pub E : Type}

/-- bip39.rs generate_mnemonic: creates a local thread rng (never
consulted), builds a fresh Words24 English mnemonic from the library
entropy source, and returns its phrase wrapped in Ok. -/
def generate_mnemonic (lib : WalletLib Mn Pth Xprv Sec Pub E)
    (threadRng : Nat) (entropy : Nat) : Except E String :=
  let _rng := threadRng
  let mnemonic := lib.mnemonic_new entropy
  Except.ok (lib.phrase mnemonic)

/-- bip39.rs validate_mnemonic: from_phrase and is_ok. -/
def validate_mnemonic (lib : WalletLib Mn Pth Xprv Sec Pub E)
    (mnemonic : String) : Bool :=
  is_ok (lib.from_phrase mnemonic)

/-- bip39.rs mnemonic_to_seed: parse the phrase (propagating the parse
error), then stretch it with the empty passphrase. -/
def mnemonic_to_seed (lib : WalletLib Mn Pth Xprv Sec Pub E)
    (mnemonic : String) : Except E Bytes :=
  match lib.from_phrase mnemonic with
  | Except.error e => Except.error e
  | Except.ok m => Except.ok (lib.to_seed m "")

/-- utils.rs public_key_to_address: serialize uncompressed, drop the first
byte, Keccak256 the rest, keep the digest from offset 12 on, hex-encode
with the fixed 0x lead. -/
def public_key_to_address (lib : WalletLib Mn Pth Xprv Sec Pub E)
    (public_key : Pub) : String :=
  let public_key_bytes := lib.serialize_uncompressed public_key
  let public_key_hash := public_key_bytes.drop 1
  let result := lib.keccak256 public_key_hash
  let address_bytes := result.drop 12
  "0x" ++ hexEncode address_bytes

/-- The wallet record assembly shared by both derivation functions in
hd_wallet.rs: extract the private key, compute the public key, encode
address and both keys. -/
def assembleWallet (lib : WalletLib Mn Pth Xprv Sec Pub E)
    (child_key : Xprv) : WalletInfo :=
  let private_key := lib.private_key_of child_key
  let public_key := lib.from_secret_key private_key
  let address := public_key_to_address lib public_key
  { address := address
    private_key := hexEncode (lib.secret_bytes private_key)
    public_key := hexEncode (lib.serialize public_key) }

/-- hd_wallet.rs derive_parent_wallet: seed from the phrase, master key,
parse the fixed parent path, derive, assemble; every step propagates
its error. -/
def derive_parent_wallet (lib : WalletLib Mn Pth Xprv Sec Pub E)
    (mnemonic : String) : Except E WalletInfo :=
  match mnemonic_to_seed lib mnemonic with
  | Except.error e => Except.error e
  | Except.ok seed =>
    match lib.master_key seed with
    | Except.error e => Except.error e
    | Except.ok master_key =>
      match lib.parse_path parentPathStr with
      | Except.error e => Except.error e
      | Except.ok path =>
        match lib.derive_priv master_key path with
        | Except.error e => Except.error e
        | Except.ok child_key => Except.ok (assembleWallet lib child_key)

/-- The body of the child loop in derive_child_wallets at index i: build
the path string, parse it, derive, assemble; errors propagate. -/
def deriveOne (lib : WalletLib Mn Pth Xprv Sec Pub E)
    (master_key : Xprv) (i : Nat) : Except E WalletInfo :=
  match lib.parse_path (pathStr i) with
  | Except.error e => Except.error e
  | Except.ok path =>
    match lib.derive_priv master_key path with
    | Except.error e => Except.error e
    | Except.ok child_key => Except.ok (assembleWallet lib child_key)

/-- The for-loop of derive_child_wallets, running indices start,
start+1, ... for the given number of iterations, pushing one wallet per
iteration and propagating the first error. -/
def deriveChildrenFrom (lib : WalletLib Mn Pth Xprv Sec Pub E)
    (master_key : Xprv) : Nat → Nat → Except E (List WalletInfo)
  | _, 0 => Except.ok []
  | start, Nat.succ k =>
    match deriveOne lib master_key start with
    | Except.error e => Except.error e
    | Except.ok w =>
      match deriveChildrenFrom lib master_key (start + 1) k with
      | Except.error e => Except.error e
      | Except.ok ws => Except.ok (w :: ws)

/-- hd_wallet.rs derive_child_wallets: seed once, master key once, then
the loop over indices 0..count. -/
def derive_child_wallets (lib : WalletLib Mn Pth Xprv Sec Pub E)
    (mnemonic : String) (count : Nat) : Except E (List WalletInfo) :=
  match mnemonic_to_seed lib mnemonic with
  | Except.error e => Except.error e
  | Except.ok seed =>
    match lib.master_key seed with
    | Except.error e => Except.error e
    | Except.ok master_key => deriveChildrenFrom lib master_key 0 count

/-- A self-contained derivation of the wallet at address index i: seed
from the phrase, master key, then the single-index derivation (the same
pipeline both source functions run, with nothing shared). -/
def wallet_at_index (lib : WalletLib Mn Pth Xprv Sec Pub E)
    (mnemonic : String) (i : Nat) : Except E WalletInfo :=
  match mnemonic_to_seed lib mnemonic with
  | Except.error e => Except.error e
  | Except.ok seed =>
    match lib.master_key seed with
    | Except.error e => Except.error e
    | Except.ok master_key => deriveOne lib master_key i

/-- lib.rs create_split_operation: one parent wallet plus 100 child
wallets, grouped into a SplitResult; errors propagate. -/
def create_split_operation (lib : WalletLib Mn Pth Xprv Sec Pub E)
    (mnemonic : String) : Except E SplitResult :=
  match derive_parent_wallet lib mnemonic with
  | Except.error e => Except.error e
  | Except.ok parent =>
    match derive_child_wallets lib mnemonic 100 with
    | Except.error e => Except.error e
    | Except.ok children =>
      Except.ok { parent_wallet := parent, child_wallets := children }

/-- The three library guarantees about the hd-derivation steps that the
spec assumes always hold in practice: the master key computation, the
parsing of the fixed path strings, and each child derivation succeed. -/
def HdOk (lib : WalletLib Mn Pth Xprv Sec Pub E) : Prop :=
  (∀ seed, ∃ k, lib.master_key seed = Except.ok k) ∧
  (∀ i, ∃ p, lib.parse_path (pathStr i) = Except.ok p) ∧
  (∀ k p, ∃ k2, lib.derive_priv k p = Except.ok k2)

/-- The parent path literal is the child path string at index 0. -/
theorem parentPathStr_eq : pathStr 0 = parentPathStr := by decide

/-- derive_parent_wallet runs exactly the self-contained index-0
derivation: its fixed path literal is the child path string at 0 and the
two bodies coincide step by step. -/
theorem derive_parent_eq (lib : WalletLib Mn Pth Xprv Sec Pub E)
    (mnemonic : String) :
    derive_parent_wallet lib mnemonic = wallet_at_index lib mnemonic 0 := by
  have h : pathStr 0 = parentPathStr := parentPathStr_eq
  simp only [derive_parent_wallet, wallet_at_index, deriveOne, h]

/-- When the child loop succeeds, it returns one wallet per iteration, in
index order, and each entry is the output of the loop body at its own
index. -/
theorem childrenFrom_ok (lib : WalletLib Mn Pth Xprv Sec Pub E)
    (mk : Xprv) :
    ∀ (n start : Nat) (ws : List WalletInfo),
    deriveChildrenFrom lib mk start n = Except.ok ws →
    ws.length = n ∧
      ∀ j, j < n → ∃ w, ws[j]? = some w ∧
        deriveOne lib mk (start + j) = Except.ok w := by
  intro n
  induction n with
  | zero =>
    intro start ws h
    unfold deriveChildrenFrom at h
    cases h
    exact ⟨rfl, fun j hj => absurd hj (Nat.not_lt_zero j)⟩
  | succ k ih =>
    intro start ws h
    unfold deriveChildrenFrom at h
    cases h1 : deriveOne lib mk start with
    | error e =>
      simp only [h1] at h
      exact Except.noConfusion h
    | ok w =>
      simp only [h1] at h
      cases h2 : deriveChildrenFrom lib mk (start + 1) k with
      | error e =>
        simp only [h2] at h
        exact Except.noConfusion h
      | ok ws2 =>
        simp only [h2] at h
        cases h
        obtain ⟨hlen, hget⟩ := ih (start + 1) ws2 h2
        refine ⟨by simp [hlen], ?_⟩
        intro j hj
        cases j with
        | zero => exact ⟨w, by simp, by simpa using h1⟩
        | succ j2 =>
          obtain ⟨w2, hg, hd⟩ := hget j2 (Nat.lt_of_succ_lt_succ hj)
          refine ⟨w2, by simpa using hg, ?_⟩
          have harith : start + (j2 + 1) = start + 1 + j2 := by omega
          rw [harith]
          exact hd

/-- When path parsing and child derivation always succeed, every run of
the child loop succeeds. -/
theorem childrenFrom_total (lib : WalletLib Mn Pth Xprv Sec Pub E)
    (mk : Xprv)
    (hp : ∀ i, ∃ p, lib.parse_path (pathStr i) = Except.ok p)
    (hd : ∀ k p, ∃ k2, lib.derive_priv k p = Except.ok k2) :
    ∀ (n start : Nat), ∃ ws,
      deriveChildrenFrom lib mk start n = Except.ok ws := by
  intro n
  induction n with
  | zero => intro start; exact ⟨[], rfl⟩
  | succ k ih =>
    intro start
    obtain ⟨p, hp1⟩ := hp start
    obtain ⟨k2, hd1⟩ := hd mk p
    obtain ⟨ws, hws⟩ := ih (start + 1)
    refine ⟨assembleWallet lib k2 :: ws, ?_⟩
    simp only [deriveChildrenFrom, deriveOne, hp1, hd1, hws]

/-- A successful derive_child_wallets run determines a successful seed, a
successful master key, and a successful loop, all over the same values. -/
theorem child_wallets_elim (lib : WalletLib Mn Pth Xprv Sec Pub E)
    (mnemonic : String) (n : Nat) (ws : List WalletInfo)
    (h : derive_child_wallets lib mnemonic n = Except.ok ws) :
    ∃ seed mk, mnemonic_to_seed lib mnemonic = Except.ok seed ∧
      lib.master_key seed = Except.ok mk ∧
      deriveChildrenFrom lib mk 0 n = Except.ok ws := by
  unfold derive_child_wallets at h
  cases h1 : mnemonic_to_seed lib mnemonic with
  | error e =>
    simp only [h1] at h
    exact Except.noConfusion h
  | ok seed =>
    simp only [h1] at h
    cases h2 : lib.master_key seed with
    | error e =>
      simp only [h2] at h
      exact Except.noConfusion h
    | ok mk =>
      simp only [h2] at h
      exact ⟨seed, mk, rfl, h2, h⟩

/-- A 24-word phrase used by the concrete stub library below. -/
def testPhrase : String := String.intercalate " " (List.replicate 24 "w")

/-- The phrase parser of the stub library: accepts exactly the test
phrase. -/
def stubFromPhrase (s : String) : Except Unit Unit :=
  if s = testPhrase then Except.ok () else Except.error ()

/-- The checksum test of the stub library. -/
def stubChecksum (s : String) : Bool := decide (s = testPhrase)

/-- The test phrase has 24 words. -/
theorem testPhrase_words24 : (words testPhrase).length = 24 := by decide

/-- Every word of the test phrase is the single wordlist entry. -/
theorem testPhrase_allW : ∀ w ∈ words testPhrase, w ∈ ["w"] := by decide

/-- A concrete, fully computable stand-in for the external crates, with a
pluggable child-derivation step.  All length and round-trip guarantees are
discharged by computation. -/
def mkStubLib (dp : Nat → String → Except Unit Nat) :
    WalletLib Unit String Nat Nat Nat Unit where
  mnemonic_new := fun _ => ()
  phrase := fun _ => testPhrase
  from_phrase := stubFromPhrase
  to_seed := fun _ _ => List.replicate 64 0
  wordlist := ["w"]
  checksum_matches := stubChecksum
  master_key := fun _ => Except.ok 0
  parse_path := fun s => Except.ok s
  derive_priv := dp
  private_key_of := fun k => k
  from_secret_key := fun _ => 0
  secret_bytes := fun _ => List.replicate 32 0
  serialize := fun _ => List.replicate 33 0
  serialize_uncompressed := fun _ => List.replicate 65 0
  keccak256 := fun _ => List.replicate 32 0
  to_seed_len := fun _ _ => rfl
  uncompressed_len := fun _ => rfl
  keccak_len := fun _ => rfl
  new_valid := fun _ => ⟨(), by unfold stubFromPhrase; rw [if_pos rfl]⟩
  new_words24 := fun _ => testPhrase_words24
  from_phrase_sound := by
    intro s m h
    unfold stubFromPhrase at h
    by_cases hs : s = testPhrase
    · subst hs
      exact ⟨testPhrase_allW, by unfold stubChecksum; simp⟩
    · rw [if_neg hs] at h
      exact Except.noConfusion h

/-- The stub library whose derivation steps all succeed. -/
def testLib : WalletLib Unit String Nat Nat Nat Unit :=
  mkStubLib (fun _ _ => Except.ok 0)

/-- The stub library whose child derivation always signals the
invalid-scalar error, modelling the hdwallet crate returning Err when a
derived scalar is zero or at least the curve order. -/
def failLib : WalletLib Unit String Nat Nat Nat Unit :=
  mkStubLib (fun _ _ => Except.error ())

/-- The wallet record every derivation of testLib produces. -/
def testWallet : WalletInfo :=
  { address := "0x" ++ hexEncode (List.replicate 20 0)
    private_key := hexEncode (List.replicate 32 0)
    public_key := hexEncode (List.replicate 33 0) }

/-- Every loop-body run of testLib yields the test wallet. -/
theorem stub_deriveOne : ∀ i, deriveOne testLib 0 i = Except.ok testWallet :=
  fun _ => rfl

/-- Every child loop of testLib yields copies of the test wallet. -/
theorem stub_children : ∀ (n start : Nat),
    deriveChildrenFrom testLib 0 start n =
      Except.ok (List.replicate n testWallet) := by
  intro n
  induction n with
  | zero => intro start; rfl
  | succ k ih =>
    intro start
    simp only [deriveChildrenFrom, stub_deriveOne, ih, List.replicate]

/-- The concrete split operation of testLib: the test wallet as parent and
one hundred copies of it as children. -/
theorem stub_create : create_split_operation testLib testPhrase =
    Except.ok { parent_wallet := testWallet,
                child_wallets := List.replicate 100 testWallet } := by
  have hparent : derive_parent_wallet testLib testPhrase =
      Except.ok testWallet := rfl
  have hchildren : derive_child_wallets testLib testPhrase 100 =
      Except.ok (List.replicate 100 testWallet) := by
    have hseed : mnemonic_to_seed testLib testPhrase =
        Except.ok (List.replicate 64 0) := rfl
    simp only [derive_child_wallets, hseed]
    exact stub_children 100 0
  simp only [create_split_operation, hparent, hchildren]

/-- Claim C1: for every valid phrase and count n, and all i below n, the
i-th element of derive_child_wallets is the wallet of an independent,
self-contained derivation of the path at address index i from the master
key of the phrase, and element 0 is what derive_parent_wallet returns; no
incremental state is shared between sibling derivations. -/
theorem C1_path_order (lib : WalletLib Mn Pth Xprv Sec Pub E)
    (mnemonic : String) (n : Nat) (ws : List WalletInfo)
    (h : derive_child_wallets lib mnemonic n = Except.ok ws) :
    (∀ i, i < n → (wallet_at_index lib mnemonic i).toOption = ws[i]?) ∧
    (0 < n → (derive_parent_wallet lib mnemonic).toOption = ws[0]?) := by
  obtain ⟨seed, mk, h1, h2, h3⟩ := child_wallets_elim lib mnemonic n ws h
  obtain ⟨hlen, hget⟩ := childrenFrom_ok lib mk n 0 ws h3
  constructor
  · intro i hi
    obtain ⟨w, hg, hd⟩ := hget i hi
    have hd2 : deriveOne lib mk i = Except.ok w := by simpa using hd
    unfold wallet_at_index
    simp only [h1, h2, hd2, hg, Except.toOption]
  · intro hn
    obtain ⟨w, hg, hd⟩ := hget 0 hn
    have hd2 : deriveOne lib mk 0 = Except.ok w := by simpa using hd
    rw [derive_parent_eq]
    unfold wallet_at_index
    simp only [h1, h2, hd2, hg, Except.toOption]

/-- Witness for C1 at the concrete stub library with one child wallet. -/
theorem C1_path_order_witness :
    (wallet_at_index testLib testPhrase 0).toOption =
      ([testWallet] : List WalletInfo)[0]? :=
  (C1_path_order testLib testPhrase 1 [testWallet] rfl).1 0 (by decide)

/-- Claim C2: a successful create_split_operation returns a SplitResult
whose first child wallet is identical, in all three fields, to its parent
wallet. -/
theorem C2_split_identity (lib : WalletLib Mn Pth Xprv Sec Pub E)
    (mnemonic : String) (res : SplitResult)
    (h : create_split_operation lib mnemonic = Except.ok res) :
    res.child_wallets[0]? = some res.parent_wallet := by
  unfold create_split_operation at h
  cases hp : derive_parent_wallet lib mnemonic with
  | error e =>
    simp only [hp] at h
    exact Except.noConfusion h
  | ok parent =>
    simp only [hp] at h
    cases hc : derive_child_wallets lib mnemonic 100 with
    | error e =>
      simp only [hc] at h
      exact Except.noConfusion h
    | ok children =>
      simp only [hc] at h
      cases h
      obtain ⟨seed, mk, h1, h2, h3⟩ :=
        child_wallets_elim lib mnemonic 100 children hc
      obtain ⟨hlen, hget⟩ := childrenFrom_ok lib mk 100 0 children h3
      obtain ⟨w, hg, hd⟩ := hget 0 (by omega)
      have hd2 : deriveOne lib mk 0 = Except.ok w := by simpa using hd
      have hpw : derive_parent_wallet lib mnemonic = Except.ok w := by
        rw [derive_parent_eq]
        unfold wallet_at_index
        simp only [h1, h2, hd2]
      rw [hp] at hpw
      injection hpw with hw
      simpa [hw] using hg

/-- Witness for C2 at the concrete stub library. -/
theorem C2_split_identity_witness :
    (List.replicate 100 testWallet)[0]? = some testWallet :=
  C2_split_identity testLib testPhrase
    { parent_wallet := testWallet,
      child_wallets := List.replicate 100 testWallet }
    stub_create

/-- Claim C3: public_key_to_address serializes the point uncompressed as
65 bytes, drops the single leading format byte leaving 64 bytes, hashes
them with Keccak256 into a 32-byte digest, takes its last 20 bytes, and
returns them hex-encoded behind the fixed 0x lead. -/
theorem C3_address_slicing (lib : WalletLib Mn Pth Xprv Sec Pub E)
    (pk : Pub) :
    (lib.serialize_uncompressed pk).length = 65 ∧
    ((lib.serialize_uncompressed pk).drop 1).length = 64 ∧
    (lib.keccak256 ((lib.serialize_uncompressed pk).drop 1)).length = 32 ∧
    public_key_to_address lib pk =
      "0x" ++ hexEncode
        (takeLast 20 (lib.keccak256 ((lib.serialize_uncompressed pk).drop 1))) := by
  refine ⟨lib.uncompressed_len pk, ?_, lib.keccak_len _, ?_⟩
  · rw [List.length_drop, lib.uncompressed_len]
  · unfold public_key_to_address takeLast
    rw [lib.keccak_len]

/-- Witness for C3 at the concrete stub library. -/
theorem C3_address_slicing_witness :
    (testLib.serialize_uncompressed 0).length = 65 ∧
    ((testLib.serialize_uncompressed 0).drop 1).length = 64 ∧
    (testLib.keccak256 ((testLib.serialize_uncompressed 0).drop 1)).length = 32 ∧
    public_key_to_address testLib 0 =
      "0x" ++ hexEncode
        (takeLast 20 (testLib.keccak256 ((testLib.serialize_uncompressed 0).drop 1))) :=
  C3_address_slicing testLib 0

/-- Claim C4: mnemonic_to_seed returns an error exactly when
validate_mnemonic is false, otherwise a seed of exactly 64 bytes, and it
is deterministic in the phrase. -/
theorem C4_seed_of_valid (lib : WalletLib Mn Pth Xprv Sec Pub E)
    (mnemonic : String) :
    ((validate_mnemonic lib mnemonic = false ∧
        ∃ e, mnemonic_to_seed lib mnemonic = Except.error e) ∨
      (validate_mnemonic lib mnemonic = true ∧
        ∃ seed, mnemonic_to_seed lib mnemonic = Except.ok seed ∧
          seed.length = 64)) ∧
    mnemonic_to_seed lib mnemonic = mnemonic_to_seed lib mnemonic := by
  refine ⟨?_, rfl⟩
  cases h : lib.from_phrase mnemonic with
  | error e =>
    left
    constructor
    · simp [validate_mnemonic, is_ok, h]
    · exact ⟨e, by simp [mnemonic_to_seed, h]⟩
  | ok m =>
    right
    constructor
    · simp [validate_mnemonic, is_ok, h]
    · exact ⟨lib.to_seed m "", by simp [mnemonic_to_seed, h],
        lib.to_seed_len m ""⟩

/-- Witness for C4 at the concrete stub library. -/
theorem C4_seed_of_valid_witness :
    ((validate_mnemonic testLib testPhrase = false ∧
        ∃ e, mnemonic_to_seed testLib testPhrase = Except.error e) ∨
      (validate_mnemonic testLib testPhrase = true ∧
        ∃ seed, mnemonic_to_seed testLib testPhrase = Except.ok seed ∧
          seed.length = 64)) ∧
    mnemonic_to_seed testLib testPhrase = mnemonic_to_seed testLib testPhrase :=
  C4_seed_of_valid testLib testPhrase

/-- Claim C5: validate_mnemonic is total on every input string, always
producing a boolean, and it returns true only when every word of the
phrase is in the wordlist and the embedded checksum matches; every
malformed input yields false, never a failure. -/
theorem C5_validate_total (lib : WalletLib Mn Pth Xprv Sec Pub E)
    (s : String) :
    validate_mnemonic lib s = false ∨
    (validate_mnemonic lib s = true ∧
      (∀ w ∈ words s, w ∈ lib.wordlist) ∧
      lib.checksum_matches s = true) := by
  cases h : lib.from_phrase s with
  | error e =>
    left
    simp [validate_mnemonic, is_ok, h]
  | ok m =>
    right
    obtain ⟨h1, h2⟩ := lib.from_phrase_sound s m h
    exact ⟨by simp [validate_mnemonic, is_ok, h], h1, h2⟩

/-- Witness for C5 at the concrete stub library. -/
theorem C5_validate_total_witness :
    validate_mnemonic testLib testPhrase = false ∨
    (validate_mnemonic testLib testPhrase = true ∧
      (∀ w ∈ words testPhrase, w ∈ testLib.wordlist) ∧
      testLib.checksum_matches testPhrase = true) :=
  C5_validate_total testLib testPhrase

/-- Claim C6 as stated is false: when the derivation of an index fails
(the invalid-scalar case of the hd library), derive_parent_wallet and
derive_child_wallets surface that error to the caller; no index is
skipped and no retry with the next index happens.  At the concrete
library whose child derivation signals the invalid-scalar error, both
operations return an error. -/
theorem C6_counterexample :
    derive_parent_wallet failLib testPhrase = Except.error () ∧
    derive_child_wallets failLib testPhrase 1 = Except.error () :=
  ⟨rfl, rfl⟩

/-- Claim C6 amended: a failing per-index derivation is propagated
unchanged to the caller of derive_parent_wallet and derive_child_wallets;
the failure is not handled by skipping the index and retrying. -/
theorem C6_error_propagates (lib : WalletLib Mn Pth Xprv Sec Pub E)
    (mnemonic : String) (n : Nat) (seed : Bytes) (mk : Xprv) (e : E)
    (hn : 0 < n)
    (h1 : mnemonic_to_seed lib mnemonic = Except.ok seed)
    (h2 : lib.master_key seed = Except.ok mk)
    (h3 : deriveOne lib mk 0 = Except.error e) :
    derive_parent_wallet lib mnemonic = Except.error e ∧
    derive_child_wallets lib mnemonic n = Except.error e := by
  constructor
  · rw [derive_parent_eq]
    unfold wallet_at_index
    simp only [h1, h2, h3]
  · unfold derive_child_wallets
    simp only [h1, h2]
    cases n with
    | zero => exact absurd hn (by omega)
    | succ k =>
      unfold deriveChildrenFrom
      simp only [h3]

/-- Witness for the amended C6 at the failing stub library. -/
theorem C6_error_propagates_witness :
    derive_parent_wallet failLib testPhrase = Except.error () ∧
    derive_child_wallets failLib testPhrase 3 = Except.error () :=
  C6_error_propagates failLib testPhrase 3 (List.replicate 64 0) 0 ()
    (by decide) rfl rfl rfl

/-- Claim C7: for every valid phrase and count n, derive_child_wallets
succeeds with an ordered sequence of exactly n wallet records, the hd
library operations being total as the spec assumes; for n = 0 it returns
the empty sequence without error. -/
theorem C7_count_wallets (lib : WalletLib Mn Pth Xprv Sec Pub E)
    (mnemonic : String) (n : Nat)
    (hlib : HdOk lib)
    (hv : validate_mnemonic lib mnemonic = true) :
    (∃ ws, derive_child_wallets lib mnemonic n = Except.ok ws ∧
      ws.length = n) ∧
    derive_child_wallets lib mnemonic 0 = Except.ok [] := by
  obtain ⟨hm, hp, hd⟩ := hlib
  have hfp : ∃ m, lib.from_phrase mnemonic = Except.ok m := by
    cases h : lib.from_phrase mnemonic with
    | error e =>
      unfold validate_mnemonic at hv
      rw [h] at hv
      exact absurd hv (by simp [is_ok])
    | ok m => exact ⟨m, rfl⟩
  obtain ⟨m, hm1⟩ := hfp
  have hseed : mnemonic_to_seed lib mnemonic =
      Except.ok (lib.to_seed m "") := by
    simp [mnemonic_to_seed, hm1]
  obtain ⟨mk, hmk⟩ := hm (lib.to_seed m "")
  constructor
  · obtain ⟨ws, hws⟩ := childrenFrom_total lib mk hp hd n 0
    obtain ⟨hlen, _⟩ := childrenFrom_ok lib mk n 0 ws hws
    refine ⟨ws, ?_, hlen⟩
    unfold derive_child_wallets
    simp only [hseed, hmk, hws]
  · unfold derive_child_wallets
    simp only [hseed, hmk]
    rfl

/-- Witness for C7 at the concrete stub library with two children. -/
theorem C7_count_wallets_witness :
    (∃ ws, derive_child_wallets testLib testPhrase 2 = Except.ok ws ∧
      ws.length = 2) ∧
    derive_child_wallets testLib testPhrase 0 = Except.ok [] :=
  C7_count_wallets testLib testPhrase 2
    ⟨fun _ => ⟨0, rfl⟩, fun i => ⟨pathStr i, rfl⟩, fun _ _ => ⟨0, rfl⟩⟩
    (by decide)

/-- Claim C8: every phrase successfully returned by generate_mnemonic
passes validate_mnemonic. -/
theorem C8_roundtrip (lib : WalletLib Mn Pth Xprv Sec Pub E)
    (threadRng entropy : Nat) (p : String)
    (h : generate_mnemonic lib threadRng entropy = Except.ok p) :
    validate_mnemonic lib p = true := by
  unfold generate_mnemonic at h
  injection h with h
  subst h
  obtain ⟨m, hm⟩ := lib.new_valid entropy
  simp [validate_mnemonic, is_ok, hm]

/-- Witness for C8 at the concrete stub library. -/
theorem C8_roundtrip_witness : validate_mnemonic testLib testPhrase = true :=
  C8_roundtrip testLib 0 0 testPhrase rfl

/-- Claim C9: derive_parent_wallet is deterministic: two calls on the
same fixed phrase return identical wallet records. -/
theorem C9_deterministic (lib : WalletLib Mn Pth Xprv Sec Pub E)
    (mnemonic : String) (r1 r2 : Except E WalletInfo)
    (h1 : derive_parent_wallet lib mnemonic = r1)
    (h2 : derive_parent_wallet lib mnemonic = r2) : r1 = r2 := by
  rw [← h1, ← h2]

/-- Witness for C9 at the concrete stub library. -/
theorem C9_deterministic_witness :
    (Except.ok testWallet : Except Unit WalletInfo) = Except.ok testWallet :=
  C9_deterministic testLib testPhrase (Except.ok testWallet)
    (Except.ok testWallet) rfl rfl

/-- Claim C10: generate_mnemonic never returns an error: it always
returns Ok with a 24-word phrase, and the locally created random
generator is never consulted (the result does not depend on it). -/
theorem C10_generate_total (lib : WalletLib Mn Pth Xprv Sec Pub E)
    (rng1 rng2 entropy : Nat) :
    generate_mnemonic lib rng1 entropy = generate_mnemonic lib rng2 entropy ∧
    ∃ p, generate_mnemonic lib rng1 entropy = Except.ok p ∧
      (words p).length = 24 :=
  ⟨rfl, ⟨lib.phrase (lib.mnemonic_new entropy), rfl, lib.new_words24 entropy⟩⟩

/-- Witness for C10 at the concrete stub library, with two different
local generators. -/
theorem C10_generate_total_witness :
    generate_mnemonic testLib 0 7 = generate_mnemonic testLib 5 7 ∧
    ∃ p, generate_mnemonic testLib 0 7 = Except.ok p ∧
      (words p).length = 24 :=
  C10_generate_total testLib 0 5 7

end Swapses
